/-
Verification of the StreamGit-Audio proxy service (src/access_audio.py).

Shallow embedding: the pure logic of the FastAPI routes
(`get_audio_file`, `list_audio_files`), the cache/fetch helper
(`download_audio_from_github`) and the `ServerManager` methods
(`find_available_port`, `start_server`, `is_server_running`) are
translated to Lean functions.  External effects are made explicit:

* the remote HTTP client (`requests.get`) becomes a function from a URL
  to an outcome (a raised `RequestException`, or a response carrying a
  status code, a reason phrase and a body);
* the on-disk cache directory becomes a map from file path to byte
  content, threaded through the functions that read or write it;
* socket binding in `find_available_port` becomes a predicate telling
  which local ports are already bound;
* the health probes of the server manager become explicit probe results.

Bytes are modelled as `List Nat`; JSON entries of the GitHub listing
API are modelled by the shapes the code inspects (non-object values,
and objects with optional string `name` / `type` fields).
-/
import Mathlib

/-! ## Configuration constants (src/access_audio.py lines 16-20) -/

/-- `SUPPORTED_FORMATS = ('.mp3', '.wav', '.ogg', '.flac', '.m4a')`. -/
def SUPPORTED_FORMATS : List String := [".mp3", ".wav", ".ogg", ".flac", ".m4a"]

/-- `AUDIO_CACHE_DIR = "audio_cache"`. -/
def AUDIO_CACHE_DIR : String := "audio_cache"

/-- `GITHUB_RAW_BASE_URL.format(owner=…, repo=…, branch=…, file_path=…)`. -/
def githubRawUrl (owner repo branch filePath : String) : String :=
  "https://raw.githubusercontent.com/" ++ owner ++ "/" ++ repo ++ "/" ++ branch ++ "/" ++ filePath

/-- `GITHUB_API_BASE_URL.format(owner=…, repo=…, path=…, branch=…)`. -/
def githubApiUrl (owner repo path branch : String) : String :=
  "https://api.github.com/repos/" ++ owner ++ "/" ++ repo ++ "/contents/" ++ path ++ "?ref=" ++ branch

/-- Python `s.lower()` (strings as their character lists). -/
def pyLower (s : String) : String := String.mk (s.toList.map Char.toLower)

/-- Python `s.endswith(suffix)` for single-string suffixes. -/
def pyEndsWith (s suffix : String) : Bool := suffix.toList.isSuffixOf s.toList

/-- Python `s.lstrip('/')`: drop all leading slash characters. -/
def lstripSlash (s : String) : String :=
  String.mk (s.toList.dropWhile (fun c => c == '/'))

/-- Python `os.path.basename`: the part after the last `'/'`. -/
def basename (s : String) : String :=
  String.mk ((s.toList.reverse.takeWhile (fun c => !(c == '/'))).reverse)

/-- Python `os.path.join(AUDIO_CACHE_DIR, name)` on a POSIX system. -/
def cachePath (name : String) : String := AUDIO_CACHE_DIR ++ "/" ++ name

/-- The raw-content URL built by `download_audio_from_github`
(line 124: `file_path=file_path.lstrip('/')`). -/
def audioUrlOf (owner repo branch filePath : String) : String :=
  githubRawUrl owner repo branch (lstripSlash filePath)

/-- The listing URL built by `list_audio_files`
(line 96: `path=path.lstrip('/')`). -/
def apiUrlOf (owner repo branch path : String) : String :=
  githubApiUrl owner repo (lstripSlash path) branch

/-! ## JSON entries of the GitHub directory-listing API

The code inspects each element of the returned JSON array only through
`isinstance(item, dict)`, `item.get('type')`, `item.get('name', '')`
and `item['name']`; an element is therefore modelled as either a
non-object JSON value or an object with optional string fields. -/

inductive Entry where
  /-- any JSON value that is not an object (`isinstance(item, dict)` is false) -/
  | nonDict : Entry
  /-- a JSON object with optional string fields `name` and `type` -/
  | dict (name : Option String) (type : Option String) : Entry
deriving DecidableEq, Repr

/-- Python `name.lower().endswith(SUPPORTED_FORMATS)`:
`str.endswith` with a tuple argument succeeds if any member matches. -/
def hasSupportedExt (name : String) : Bool :=
  SUPPORTED_FORMATS.any (fun ext => pyEndsWith (pyLower name) ext)

/-- The list comprehension of `list_audio_files` (lines 111-116):
`[item['name'] for item in contents if isinstance(item, dict) and
item.get('type') == 'file' and
item.get('name', '').lower().endswith(SUPPORTED_FORMATS)]`. -/
def audioFilesOf (contents : List Entry) : List String :=
  contents.filterMap (fun item =>
    match item with
    | .nonDict => none
    | .dict name type =>
      if type = some "file" && hasSupportedExt (name.getD "") then
        some (name.getD "")
      else
        none)

/-! ## The remote HTTP client

`requests.get` either raises a `RequestException` or returns a response;
`response.raise_for_status()` raises `HTTPError` exactly when the status
code is in 400-599, with the message requests builds from the status
code, the reason phrase and the URL. -/

/-- Outcome of `requests.get` on the raw-content URL: a raised
`RequestException` (with its message), or a response with status code,
reason phrase and body bytes. -/
inductive FetchOutcome where
  | exn (msg : String)
  | resp (status : Nat) (reason : String) (body : List Nat)
deriving DecidableEq, Repr

/-- Body of the listing response after `response.json()`: a JSON array
of entries, or any non-array JSON value. -/
inductive ListBody where
  | arr (items : List Entry)
  | nonArr
deriving DecidableEq, Repr

/-- Outcome of `requests.get` on the listing API URL. -/
inductive ListOutcome where
  | exn (msg : String)
  | resp (status : Nat) (reason : String) (body : ListBody)
deriving DecidableEq, Repr

/-- `response.raise_for_status()`: returns the message of the raised
`HTTPError` for status codes 400-599, and `none` (no exception) for all
other status codes.  The message follows requests'
`"{code} Client Error: {reason} for url: {url}"` /
`"{code} Server Error: {reason} for url: {url}"` construction. -/
def raiseForStatus (status : Nat) (reason url : String) : Option String :=
  if 400 ≤ status ∧ status < 500 then
    some (toString status ++ " Client Error: " ++ reason ++ " for url: " ++ url)
  else if 500 ≤ status ∧ status < 600 then
    some (toString status ++ " Server Error: " ++ reason ++ " for url: " ++ url)
  else
    none

/-- The external world seen by the proxy routes: the remote client's
behaviour on raw-content URLs and on listing URLs, and whether local
file writes fail (`some msg` = every `open`/`write` raises
`OSError(msg)`). -/
structure Env where
  rawApi : String → FetchOutcome
  listApi : String → ListOutcome
  fsError : Option String

/-- The on-disk cache directory: file path to byte content. -/
def Cache := String → Option (List Nat)

/-- `cache.write path bytes`: the filesystem after `open(path,'wb').write(bytes)`. -/
def Cache.write (cache : Cache) (path : String) (bytes : List Nat) : Cache :=
  fun k => if k = path then some bytes else cache k

/-- The empty cache directory. -/
def Cache.empty : Cache := fun _ => none

/-! ## Exceptions reaching the `/audio/...` route boundary -/

/-- The exceptions `get_audio_file` can catch: the `fastapi.HTTPException`
raised by `download_audio_from_github`, or an `OSError` from the cache
write. -/
inductive PyErr where
  | httpExc (status : Nat) (detail : String)
  | osError (msg : String)

/-- Python `str(e)` on those exceptions (starlette's
`HTTPException.__str__` is `f"{status_code}: {detail}"`; `str` of an
`OSError(msg)` is `msg`). -/
def PyErr.toMessage : PyErr → String
  | .httpExc status detail => toString status ++ ": " ++ detail
  | .osError msg => msg

/-! ## `download_audio_from_github` (lines 122-141) -/

/-- `download_audio_from_github(owner, repo, branch, file_path)`.

Returns the result (the local path together with the cache directory
after the write, or the raised exception) paired with the list of raw
URLs fetched from the remote (the trace of `requests.get` calls). -/
def download_audio_from_github (env : Env) (cache : Cache)
    (owner repo branch filePath : String) :
    Except PyErr (String × Cache) × List String :=
  let audioUrl := audioUrlOf owner repo branch filePath
  let localPath := cachePath (basename filePath)
  match env.rawApi audioUrl with
  | .exn m =>
      (.error (.httpExc 404 ("Audio file not found: " ++ m)), [audioUrl])
  | .resp status reason body =>
      match raiseForStatus status reason audioUrl with
      | some m =>
          (.error (.httpExc 404 ("Audio file not found: " ++ m)), [audioUrl])
      | none =>
          match env.fsError with
          | some m => (.error (.osError m), [audioUrl])
          | none => (.ok (localPath, cache.write localPath body), [audioUrl])

/-! ## The `/audio/...` route (lines 84-91) -/

/-- HTTP response of the `/audio/...` route: `FileResponse(local_path)`
(serving the bytes stored at that path), or
`JSONResponse(status_code=500, content={"error": str(e)})`. -/
inductive AudioResponse where
  | fileResp (bytes : Option (List Nat))
  | errorJson (status : Nat) (msg : String)
deriving DecidableEq, Repr

/-- Whether an `/audio/...` response is a 500 JSON error body. -/
def AudioResponse.is500Error : AudioResponse → Bool
  | .errorJson 500 _ => true
  | _ => false

/-- Result of one `/audio/...` request: the HTTP response, the cache
directory afterwards, and the trace of remote raw-content fetches. -/
structure AudioResult where
  response : AudioResponse
  cache : Cache
  remoteCalls : List String

/-- `get_audio_file(owner, repo, branch, file_path)`: call
`download_audio_from_github` and serve the file, or catch any exception
and answer `500 {"error": str(e)}`. -/
def get_audio_file (env : Env) (cache : Cache)
    (owner repo branch filePath : String) : AudioResult :=
  match download_audio_from_github env cache owner repo branch filePath with
  | (.ok (localPath, cache'), calls) =>
      ⟨.fileResp (cache' localPath), cache', calls⟩
  | (.error e, calls) =>
      ⟨.errorJson 500 e.toMessage, cache, calls⟩

/-! ## The `/list-audio/...` route (lines 93-120) -/

/-- HTTP response of the `/list-audio/...` route: `{"audio_files": […]}`
with status 200, or `JSONResponse(status_code, {"error": msg})`. -/
inductive ListResponse where
  | okFiles (files : List String)
  | errorJson (status : Nat) (msg : String)
deriving DecidableEq, Repr

/-- Whether a `/list-audio/...` response is a 404 JSON error body. -/
def ListResponse.is404Error : ListResponse → Bool
  | .errorJson 404 _ => true
  | _ => false

/-- `list_audio_files(owner, repo, branch, path)`: GET the listing API
URL, `raise_for_status`, reject non-array bodies with 400, otherwise
filter the entries; any `RequestException` becomes a 404 error body. -/
def list_audio_files (env : Env) (owner repo branch path : String) : ListResponse :=
  let apiUrl := apiUrlOf owner repo branch path
  match env.listApi apiUrl with
  | .exn m => .errorJson 404 m
  | .resp status reason body =>
      match raiseForStatus status reason apiUrl with
      | some m => .errorJson 404 m
      | none =>
          match body with
          | .nonArr => .errorJson 400 "Path is not a directory"
          | .arr items => .okFiles (audioFilesOf items)

/-! ## `ServerManager` (lines 25-74)

The manager's fields are `port` (`None` initially), `server_thread`
(`None` initially; whether a thread object exists is a Boolean here,
its current liveness is an observation of the environment) and
`server_started`.  Wall-clock time in the readiness poll is modelled by
the finite sequence of health-probe outcomes that fit inside the
5-second window (`none` = the request raised, `some s` = status `s`). -/

structure ServerManagerState where
  port : Option Nat
  serverThreadExists : Bool
  serverStarted : Bool
deriving DecidableEq, Repr

/-- `ServerManager.__init__`. -/
def initServerManager : ServerManagerState := ⟨none, false, false⟩

/-- The loop of `find_available_port`: try `port`, on `OSError`
(the port is already bound) continue with `port + 1`, for `fuel`
attempts in total. -/
def findPortLoop (bound : Nat → Bool) : Nat → Nat → Option Nat
  | _, 0 => none
  | port, fuel + 1 => if bound port then findPortLoop bound (port + 1) fuel else some port

/-- `find_available_port(start_port)`: probe
`start_port, …, start_port + 49` in order, return the first port whose
test bind succeeds, raise `OSError` if none does.  `bound p = true`
means the bind of port `p` fails. -/
def find_available_port (bound : Nat → Bool) (startPort : Nat) : Except String Nat :=
  match findPortLoop bound startPort 50 with
  | some p => .ok p
  | none => .error ("No available port found in range " ++ toString startPort
      ++ "-" ++ toString (startPort + 49))

/-- The readiness-poll loop of `start_server`: issue the probes in
order until one returns status 200 (then `server_started = True`) or
the probes within the timeout window are exhausted. -/
def pollHealth : List (Option Nat) → Bool
  | [] => false
  | r :: rest => if r = some 200 then true else pollHealth rest

/-- Result of one `start_server()` call: the normal return or the
propagated exception, the manager's state afterwards, and whether a new
server thread was launched. -/
structure StartOutcome where
  result : Except String Unit
  state : ServerManagerState
  launched : Bool
deriving Repr

/-- `start_server()`: no-op when `self.server_thread and
self.server_thread.is_alive()`; otherwise assign
`self.port = self.find_available_port()` (an `OSError` propagates and
leaves every field unmodified), reset `server_started`, launch the
server thread, and poll `/health` until a 200 response or the timeout. -/
def start_server (bound : Nat → Bool) (prevThreadAlive : Bool)
    (probes : List (Option Nat)) (st : ServerManagerState) : StartOutcome :=
  if st.serverThreadExists && prevThreadAlive then
    ⟨.ok (), st, false⟩
  else
    match find_available_port bound 8000 with
    | .error m => ⟨.error m, st, false⟩
    | .ok p => ⟨.ok (), ⟨some p, true, pollHealth probes⟩, true⟩

/-- Result of one `is_server_running()` call: the returned Boolean and
the number of health requests issued. -/
structure RunningProbe where
  result : Bool
  requestsMade : Nat
deriving DecidableEq, Repr

/-- `is_server_running()`: `if not self.port: return False` (Python
truthiness: `None` and `0` are falsy), otherwise issue one health GET
to the assigned port and return whether it answered 200 (`none` models
a raised exception; any exception yields `False`). -/
def is_server_running (healthNow : Nat → Option Nat)
    (st : ServerManagerState) : RunningProbe :=
  match st.port with
  | none => ⟨false, 0⟩
  | some p =>
      if p = 0 then ⟨false, 0⟩
      else ⟨decide (healthNow p = some 200), 1⟩

/-! ## Specification-side reformulation of the listing filter

For the refinement claim about the `/list-audio/...` filter, the
following definitions restate the spec's words — "the names of the
entries whose type is \"file\" and whose lower-cased name ends with one
of the supported audio extensions, preserving the source order" — to be
compared with `audioFilesOf`, which is translated from the code's list
comprehension. -/

/-- Spec side: an entry qualifies when it is an object whose `type`
field is `"file"` and whose `name` field's lower-casing ends with a
supported audio extension. -/
def specIsAudioEntry : Entry → Bool
  | .dict (some n) t =>
      decide (t = some "file") && SUPPORTED_FORMATS.any (fun ext => pyEndsWith (pyLower n) ext)
  | _ => false

/-- Spec side: the name of a qualifying entry. -/
def specEntryName : Entry → String
  | .dict (some n) _ => n
  | _ => ""

/-- Spec side: the qualifying names in source order. -/
def specAudioNames (contents : List Entry) : List String :=
  (contents.filter specIsAudioEntry).map specEntryName

/-- The spec's worked example: a listing of three `type: "file"` entries
named `a.mp3`, `b.txt`, `c.FLAC`. -/
def exampleListing : List Entry :=
  [.dict (some "a.mp3") (some "file"),
   .dict (some "b.txt") (some "file"),
   .dict (some "c.FLAC") (some "file")]

/-- An entry the filter can take a name from: an object with a `name`. -/
def entryWellFormed : Entry → Bool
  | .dict (some _) _ => true
  | _ => false

lemma hasSupportedExt_empty : hasSupportedExt "" = false := by decide

lemma specIsAudioEntry_dict (n : String) (t : Option String) :
    specIsAudioEntry (.dict (some n) t) = (decide (t = some "file") && hasSupportedExt n) := rfl

lemma audioFilesOf_eq_specAudioNames (contents : List Entry) :
    audioFilesOf contents = specAudioNames contents := by
  induction contents with
  | nil => rfl
  | cons e rest ih =>
    cases e with
    | nonDict =>
      simpa [audioFilesOf, specAudioNames, List.filterMap_cons, List.filter_cons,
        specIsAudioEntry] using ih
    | dict name type =>
      cases name with
      | none =>
        simpa [audioFilesOf, specAudioNames, List.filterMap_cons, List.filter_cons,
          specIsAudioEntry, hasSupportedExt_empty] using ih
      | some n =>
        by_cases h1 : type = some "file"
        · by_cases h2 : hasSupportedExt n = true
          · simpa [audioFilesOf, specAudioNames, List.filterMap_cons, List.filter_cons,
              specIsAudioEntry_dict, specEntryName, h1, h2] using ih
          · simpa [audioFilesOf, specAudioNames, List.filterMap_cons, List.filter_cons,
              specIsAudioEntry_dict, specEntryName, h1, h2] using ih
        · simpa [audioFilesOf, specAudioNames, List.filterMap_cons, List.filter_cons,
            specIsAudioEntry_dict, specEntryName, h1] using ih

lemma audioFilesOf_filter_wellFormed (contents : List Entry) :
    audioFilesOf contents = audioFilesOf (contents.filter entryWellFormed) := by
  induction contents with
  | nil => rfl
  | cons e rest ih =>
    cases e with
    | nonDict =>
      simpa [audioFilesOf, List.filterMap_cons, List.filter_cons, entryWellFormed] using ih
    | dict name type =>
      cases name with
      | none =>
        simpa [audioFilesOf, List.filterMap_cons, List.filter_cons, entryWellFormed,
          hasSupportedExt_empty] using ih
      | some n =>
        by_cases h1 : type = some "file"
        · by_cases h2 : hasSupportedExt n = true
          · simpa [audioFilesOf, List.filterMap_cons, List.filter_cons, entryWellFormed,
              h1, h2] using ih
          · simpa [audioFilesOf, List.filterMap_cons, List.filter_cons, entryWellFormed,
              h1, h2] using ih
        · simpa [audioFilesOf, List.filterMap_cons, List.filter_cons, entryWellFormed,
            h1] using ih

/-- C3: for every JSON array returned by the remote listing API, the
directory-listing filter returns exactly the names of the entries whose
type is `"file"` and whose lower-cased name ends with one of
`{.mp3, .wav, .ogg, .flac, .m4a}`, preserving the source order; in
particular a listing of file entries `["a.mp3", "b.txt", "c.FLAC"]`
yields exactly `["a.mp3", "c.FLAC"]`. -/
theorem list_audio_filter_matches_spec :
    (∀ contents : List Entry, audioFilesOf contents = specAudioNames contents)
    ∧ audioFilesOf exampleListing = ["a.mp3", "c.FLAC"] := by
  refine ⟨fun contents => audioFilesOf_eq_specAudioNames contents, ?_⟩
  decide

/-- C10: array entries that are not objects, and object entries lacking
a `name`, are silently skipped by the `/list-audio/...` filter, and when
the listing API answers 200 with a JSON array the route responds 200
with `{audio_files: …}` built from the well-formed file entries only. -/
theorem list_audio_skips_malformed_entries :
    (∀ contents : List Entry,
      audioFilesOf contents = audioFilesOf (contents.filter entryWellFormed))
    ∧ (∀ (rawApi : String → FetchOutcome) (fsErr : Option String) (reason : String)
        (contents : List Entry) (owner repo branch path : String),
        list_audio_files ⟨rawApi, fun _ => .resp 200 reason (.arr contents), fsErr⟩
          owner repo branch path = .okFiles (audioFilesOf contents)) := by
  refine ⟨fun contents => audioFilesOf_filter_wellFormed contents, ?_⟩
  intro rawApi fsErr reason contents owner repo branch path
  simp [list_audio_files, raiseForStatus]

/-! ## Behaviour of `download_audio_from_github` and the `/audio/...` route -/

lemma append_ne_empty_left (p s : String) (hp : p ≠ "") : p ++ s ≠ "" := by
  intro h
  apply hp
  have hl := congrArg String.length h
  rw [String.length_append] at hl
  have h0 : ("" : String).length = 0 := rfl
  rw [h0] at hl
  have : p.length = 0 := by omega
  exact String.ext (List.length_eq_zero.mp this)

lemma download_success (env : Env) (cache : Cache)
    (owner repo branch filePath : String)
    (status : Nat) (reason : String) (body : List Nat)
    (hremote : env.rawApi (audioUrlOf owner repo branch filePath) = .resp status reason body)
    (hok : raiseForStatus status reason (audioUrlOf owner repo branch filePath) = none)
    (hfs : env.fsError = none) :
    download_audio_from_github env cache owner repo branch filePath =
      (.ok (cachePath (basename filePath),
            Cache.write cache (cachePath (basename filePath)) body),
       [audioUrlOf owner repo branch filePath]) := by
  simp [download_audio_from_github, hremote, hok, hfs]

lemma download_exn (env : Env) (cache : Cache)
    (owner repo branch filePath : String) (m : String)
    (hremote : env.rawApi (audioUrlOf owner repo branch filePath) = .exn m) :
    download_audio_from_github env cache owner repo branch filePath =
      (.error (.httpExc 404 ("Audio file not found: " ++ m)),
       [audioUrlOf owner repo branch filePath]) := by
  simp [download_audio_from_github, hremote]

lemma download_httpError (env : Env) (cache : Cache)
    (owner repo branch filePath : String)
    (status : Nat) (reason : String) (body : List Nat) (m : String)
    (hremote : env.rawApi (audioUrlOf owner repo branch filePath) = .resp status reason body)
    (herr : raiseForStatus status reason (audioUrlOf owner repo branch filePath) = some m) :
    download_audio_from_github env cache owner repo branch filePath =
      (.error (.httpExc 404 ("Audio file not found: " ++ m)),
       [audioUrlOf owner repo branch filePath]) := by
  simp [download_audio_from_github, hremote, herr]

lemma download_fsError (env : Env) (cache : Cache)
    (owner repo branch filePath : String)
    (status : Nat) (reason : String) (body : List Nat) (m : String)
    (hremote : env.rawApi (audioUrlOf owner repo branch filePath) = .resp status reason body)
    (hok : raiseForStatus status reason (audioUrlOf owner repo branch filePath) = none)
    (hfs : env.fsError = some m) :
    download_audio_from_github env cache owner repo branch filePath =
      (.error (.osError m), [audioUrlOf owner repo branch filePath]) := by
  simp [download_audio_from_github, hremote, hok, hfs]

lemma get_audio_file_success (env : Env) (cache : Cache)
    (owner repo branch filePath : String)
    (status : Nat) (reason : String) (body : List Nat)
    (hremote : env.rawApi (audioUrlOf owner repo branch filePath) = .resp status reason body)
    (hok : raiseForStatus status reason (audioUrlOf owner repo branch filePath) = none)
    (hfs : env.fsError = none) :
    get_audio_file env cache owner repo branch filePath =
      ⟨.fileResp (some body),
       Cache.write cache (cachePath (basename filePath)) body,
       [audioUrlOf owner repo branch filePath]⟩ := by
  unfold get_audio_file
  rw [download_success env cache owner repo branch filePath status reason body hremote hok hfs]
  simp [Cache.write]

/-- C1 (amended): `GET /audio/...` derives the local cache key as the
base name of `file_path`, but performs no cache-hit check: on every
request — cached or not — it calls the remote raw-content URL exactly
once and overwrites the cache entry before serving the freshly fetched
bytes.  Fetching a previously-uncached file and fetching it again
against an unchanged remote returns identical bytes, with one remote
call per request (two in total), not one. -/
theorem get_audio_file_always_fetches (env : Env) (cache : Cache)
    (owner repo branch filePath : String)
    (status : Nat) (reason : String) (body : List Nat)
    (hremote : env.rawApi (audioUrlOf owner repo branch filePath) = .resp status reason body)
    (hok : raiseForStatus status reason (audioUrlOf owner repo branch filePath) = none)
    (hfs : env.fsError = none) :
    (get_audio_file env cache owner repo branch filePath).remoteCalls
        = [audioUrlOf owner repo branch filePath]
    ∧ (get_audio_file env cache owner repo branch filePath).response
        = .fileResp (some body)
    ∧ (get_audio_file env cache owner repo branch filePath).cache
        (cachePath (basename filePath)) = some body
    ∧ (get_audio_file env
          (get_audio_file env cache owner repo branch filePath).cache
          owner repo branch filePath).remoteCalls
        = [audioUrlOf owner repo branch filePath]
    ∧ (get_audio_file env
          (get_audio_file env cache owner repo branch filePath).cache
          owner repo branch filePath).response
        = .fileResp (some body) := by
  rw [get_audio_file_success env cache owner repo branch filePath status reason body
    hremote hok hfs]
  rw [get_audio_file_success env
    (Cache.write cache (cachePath (basename filePath)) body)
    owner repo branch filePath status reason body hremote hok hfs]
  refine ⟨rfl, rfl, ?_, rfl, rfl⟩
  simp [Cache.write]

/-- A remote that always answers 200 with bytes `[7]` (used for C1). -/
def envAlways7 : Env :=
  ⟨fun _ => .resp 200 "OK" [7], fun _ => .exn "unused", none⟩

/-- A cache directory already holding `audio_cache/x.mp3` with bytes
`[9]` (used for C1). -/
def cacheWith9 : Cache :=
  fun k => if k = cachePath "x.mp3" then some [9] else none

theorem get_audio_file_always_fetches_witness :
    (get_audio_file envAlways7 Cache.empty "o" "r" "b" "x.mp3").remoteCalls
        = [audioUrlOf "o" "r" "b" "x.mp3"]
    ∧ (get_audio_file envAlways7 Cache.empty "o" "r" "b" "x.mp3").response
        = .fileResp (some [7])
    ∧ (get_audio_file envAlways7 Cache.empty "o" "r" "b" "x.mp3").cache
        (cachePath (basename "x.mp3")) = some [7]
    ∧ (get_audio_file envAlways7
          (get_audio_file envAlways7 Cache.empty "o" "r" "b" "x.mp3").cache
          "o" "r" "b" "x.mp3").remoteCalls
        = [audioUrlOf "o" "r" "b" "x.mp3"]
    ∧ (get_audio_file envAlways7
          (get_audio_file envAlways7 Cache.empty "o" "r" "b" "x.mp3").cache
          "o" "r" "b" "x.mp3").response
        = .fileResp (some [7]) :=
  get_audio_file_always_fetches envAlways7 Cache.empty "o" "r" "b" "x.mp3"
    200 "OK" [7] rfl rfl rfl

/-- C1 as stated is false on the code: with `audio_cache/x.mp3` already
cached (bytes `[9]`), a request for `x.mp3` still issues one remote call
and serves the freshly fetched bytes `[7]` rather than the cached bytes,
and two successive fetches of a previously-uncached file issue two
remote calls in total, not one. -/
theorem get_audio_file_cached_still_fetches_cex :
    cacheWith9 (cachePath "x.mp3") = some [9]
    ∧ (get_audio_file envAlways7 cacheWith9 "o" "r" "b" "x.mp3").remoteCalls.length = 1
    ∧ (get_audio_file envAlways7 cacheWith9 "o" "r" "b" "x.mp3").response
        = .fileResp (some [7])
    ∧ (get_audio_file envAlways7 Cache.empty "o" "r" "b" "x.mp3").remoteCalls.length
        + (get_audio_file envAlways7
            (get_audio_file envAlways7 Cache.empty "o" "r" "b" "x.mp3").cache
            "o" "r" "b" "x.mp3").remoteCalls.length = 2 := by
  refine ⟨by decide, by decide, by decide, by decide⟩

/-- C2 (amended): the cache is keyed by base file name only, so for two
remote files with different directories but the same base name, fetching
the second overwrites the cache entry written by the first; however a
subsequent request for the first file does not serve those cached bytes:
it re-fetches the first file remotely and returns the first file's
bytes (overwriting the entry once more). -/
theorem cache_collision_overwrite_then_refetch (env : Env) (cache : Cache)
    (owner1 repo1 branch1 fp1 owner2 repo2 branch2 fp2 : String)
    (s1 : Nat) (r1 : String) (b1 : List Nat)
    (s2 : Nat) (r2 : String) (b2 : List Nat)
    (hbase : basename fp1 = basename fp2)
    (h1 : env.rawApi (audioUrlOf owner1 repo1 branch1 fp1) = .resp s1 r1 b1)
    (hok1 : raiseForStatus s1 r1 (audioUrlOf owner1 repo1 branch1 fp1) = none)
    (h2 : env.rawApi (audioUrlOf owner2 repo2 branch2 fp2) = .resp s2 r2 b2)
    (hok2 : raiseForStatus s2 r2 (audioUrlOf owner2 repo2 branch2 fp2) = none)
    (hfs : env.fsError = none) :
    (get_audio_file env (get_audio_file env cache owner1 repo1 branch1 fp1).cache
        owner2 repo2 branch2 fp2).cache (cachePath (basename fp1)) = some b2
    ∧ (get_audio_file env
        (get_audio_file env (get_audio_file env cache owner1 repo1 branch1 fp1).cache
          owner2 repo2 branch2 fp2).cache
        owner1 repo1 branch1 fp1).response = .fileResp (some b1)
    ∧ (get_audio_file env
        (get_audio_file env (get_audio_file env cache owner1 repo1 branch1 fp1).cache
          owner2 repo2 branch2 fp2).cache
        owner1 repo1 branch1 fp1).remoteCalls = [audioUrlOf owner1 repo1 branch1 fp1]
    ∧ (get_audio_file env
        (get_audio_file env (get_audio_file env cache owner1 repo1 branch1 fp1).cache
          owner2 repo2 branch2 fp2).cache
        owner1 repo1 branch1 fp1).cache (cachePath (basename fp1)) = some b1 := by
  rw [get_audio_file_success env cache owner1 repo1 branch1 fp1 s1 r1 b1 h1 hok1 hfs]
  rw [get_audio_file_success env
    (Cache.write cache (cachePath (basename fp1)) b1)
    owner2 repo2 branch2 fp2 s2 r2 b2 h2 hok2 hfs]
  rw [get_audio_file_success env
    (Cache.write (Cache.write cache (cachePath (basename fp1)) b1)
      (cachePath (basename fp2)) b2)
    owner1 repo1 branch1 fp1 s1 r1 b1 h1 hok1 hfs]
  refine ⟨?_, rfl, rfl, ?_⟩
  · rw [hbase]
    simp [Cache.write]
  · simp [Cache.write]

/-- A remote serving `[1]` at `…/o/r/b/d1/x.mp3` and `[2]` at every
other URL, in particular at `…/o/r/b/d2/x.mp3` (used for C2). -/
def envTwoDirs : Env :=
  ⟨fun url => if url = audioUrlOf "o" "r" "b" "d1/x.mp3" then .resp 200 "OK" [1]
              else .resp 200 "OK" [2],
   fun _ => .exn "unused", none⟩

theorem cache_collision_overwrite_then_refetch_witness :
    (get_audio_file envTwoDirs
        (get_audio_file envTwoDirs Cache.empty "o" "r" "b" "d1/x.mp3").cache
        "o" "r" "b" "d2/x.mp3").cache (cachePath (basename "d1/x.mp3")) = some [2]
    ∧ (get_audio_file envTwoDirs
        (get_audio_file envTwoDirs
          (get_audio_file envTwoDirs Cache.empty "o" "r" "b" "d1/x.mp3").cache
          "o" "r" "b" "d2/x.mp3").cache
        "o" "r" "b" "d1/x.mp3").response = .fileResp (some [1])
    ∧ (get_audio_file envTwoDirs
        (get_audio_file envTwoDirs
          (get_audio_file envTwoDirs Cache.empty "o" "r" "b" "d1/x.mp3").cache
          "o" "r" "b" "d2/x.mp3").cache
        "o" "r" "b" "d1/x.mp3").remoteCalls = [audioUrlOf "o" "r" "b" "d1/x.mp3"]
    ∧ (get_audio_file envTwoDirs
        (get_audio_file envTwoDirs
          (get_audio_file envTwoDirs Cache.empty "o" "r" "b" "d1/x.mp3").cache
          "o" "r" "b" "d2/x.mp3").cache
        "o" "r" "b" "d1/x.mp3").cache (cachePath (basename "d1/x.mp3")) = some [1] :=
  cache_collision_overwrite_then_refetch envTwoDirs Cache.empty
    "o" "r" "b" "d1/x.mp3" "o" "r" "b" "d2/x.mp3"
    200 "OK" [1] 200 "OK" [2] (by decide) (by decide) (by decide) (by decide) (by decide) rfl

/-- C2 as stated is false on the code in its final consequence: after
fetching `d1/x.mp3` (bytes `[1]`) and then `d2/x.mp3` (bytes `[2]`),
the shared cache entry `audio_cache/x.mp3` does hold `[2]`, but a
subsequent request for the first file returns the first file's bytes
`[1]` (re-fetched remotely), not the second file's bytes `[2]`. -/
theorem cache_collision_returns_first_bytes_cex :
    (get_audio_file envTwoDirs
        (get_audio_file envTwoDirs Cache.empty "o" "r" "b" "d1/x.mp3").cache
        "o" "r" "b" "d2/x.mp3").cache (cachePath "x.mp3") = some [2]
    ∧ (get_audio_file envTwoDirs
        (get_audio_file envTwoDirs
          (get_audio_file envTwoDirs Cache.empty "o" "r" "b" "d1/x.mp3").cache
          "o" "r" "b" "d2/x.mp3").cache
        "o" "r" "b" "d1/x.mp3").response = .fileResp (some [1])
    ∧ (AudioResponse.fileResp (some [1]) ≠ AudioResponse.fileResp (some [2])) := by
  refine ⟨by decide, by decide, by decide⟩

/-! ## Error messages surfaced by the `/audio/...` route -/

/-- An HTTP status code in the 2xx success class. -/
def is2xx (status : Nat) : Bool := 200 ≤ status && status < 300

lemma toMessage_httpExc404 (d : String) :
    PyErr.toMessage (.httpExc 404 d) = "404: " ++ d := by
  show toString (404 : Nat) ++ ": " ++ d = "404: " ++ d
  have h4 : toString (404 : Nat) = "404" := by decide
  rw [h4]
  have h5 : ("404" ++ ": " : String) = "404: " := by decide
  rw [h5]

lemma audio_err_msg (m : String) :
    PyErr.toMessage (.httpExc 404 ("Audio file not found: " ++ m))
      = "404: Audio file not found: " ++ m := by
  rw [toMessage_httpExc404, ← String.append_assoc]
  have h : ("404: " ++ "Audio file not found: " : String)
      = "404: Audio file not found: " := by decide
  rw [h]

lemma raiseForStatus_404 (reason url : String) :
    raiseForStatus 404 reason url
      = some ("404 Client Error: " ++ reason ++ " for url: " ++ url) := by
  unfold raiseForStatus
  rw [if_pos (by omega : 400 ≤ 404 ∧ 404 < 500)]
  have h4 : toString (404 : Nat) = "404" := by decide
  rw [h4]
  have h : ("404" ++ " Client Error: " : String) = "404 Client Error: " := by decide
  rw [h]

lemma get_audio_file_error (env : Env) (cache : Cache)
    (owner repo branch filePath : String) (e : PyErr) (calls : List String)
    (hd : download_audio_from_github env cache owner repo branch filePath
        = (.error e, calls)) :
    get_audio_file env cache owner repo branch filePath
      = ⟨.errorJson 500 e.toMessage, cache, calls⟩ := by
  unfold get_audio_file
  rw [hd]

/-- C5 (amended): any failure of `GET /audio/...` — a remote fetch
exception, a remote status in the 4xx/5xx range (the statuses for which
`raise_for_status` raises), or a filesystem error — results in a 500
response with JSON body `{error: message}`; in particular a remote fetch
returning HTTP 404 surfaces as a 500 JSON error whose non-empty message
includes the underlying cause.  (Statuses outside 400-599, e.g. 3xx, do
not raise and are served as success.) -/
theorem audio_route_errors_500 (env : Env) (cache : Cache)
    (owner repo branch filePath : String) :
    (∀ m, env.rawApi (audioUrlOf owner repo branch filePath) = .exn m →
      (get_audio_file env cache owner repo branch filePath).response
          = .errorJson 500 ("404: Audio file not found: " ++ m)
      ∧ ("404: Audio file not found: " ++ m) ≠ "")
    ∧ (∀ status reason body m,
        env.rawApi (audioUrlOf owner repo branch filePath) = .resp status reason body →
        raiseForStatus status reason (audioUrlOf owner repo branch filePath) = some m →
        (get_audio_file env cache owner repo branch filePath).response
            = .errorJson 500 ("404: Audio file not found: " ++ m)
        ∧ ("404: Audio file not found: " ++ m) ≠ "")
    ∧ (∀ status reason body m,
        env.rawApi (audioUrlOf owner repo branch filePath) = .resp status reason body →
        raiseForStatus status reason (audioUrlOf owner repo branch filePath) = none →
        env.fsError = some m →
        (get_audio_file env cache owner repo branch filePath).response
            = .errorJson 500 m)
    ∧ (∀ reason body,
        env.rawApi (audioUrlOf owner repo branch filePath) = .resp 404 reason body →
        (get_audio_file env cache owner repo branch filePath).response
            = .errorJson 500 ("404: Audio file not found: "
                ++ ("404 Client Error: " ++ reason ++ " for url: "
                    ++ audioUrlOf owner repo branch filePath))) := by
  have hne : ∀ m : String, ("404: Audio file not found: " ++ m) ≠ "" :=
    fun m => append_ne_empty_left "404: Audio file not found: " m (by decide)
  refine ⟨?_, ?_, ?_, ?_⟩
  · intro m hremote
    rw [get_audio_file_error env cache owner repo branch filePath
      (.httpExc 404 ("Audio file not found: " ++ m))
      [audioUrlOf owner repo branch filePath]
      (download_exn env cache owner repo branch filePath m hremote)]
    exact ⟨congrArg (AudioResponse.errorJson 500) (audio_err_msg m), hne m⟩
  · intro status reason body m hremote herr
    rw [get_audio_file_error env cache owner repo branch filePath
      (.httpExc 404 ("Audio file not found: " ++ m))
      [audioUrlOf owner repo branch filePath]
      (download_httpError env cache owner repo branch filePath status reason body m
        hremote herr)]
    exact ⟨congrArg (AudioResponse.errorJson 500) (audio_err_msg m), hne m⟩
  · intro status reason body m hremote hok hfs
    rw [get_audio_file_error env cache owner repo branch filePath
      (.osError m) [audioUrlOf owner repo branch filePath]
      (download_fsError env cache owner repo branch filePath status reason body m
        hremote hok hfs)]
    rfl
  · intro reason body hremote
    rw [get_audio_file_error env cache owner repo branch filePath
      (.httpExc 404 ("Audio file not found: "
        ++ ("404 Client Error: " ++ reason ++ " for url: "
            ++ audioUrlOf owner repo branch filePath)))
      [audioUrlOf owner repo branch filePath]
      (download_httpError env cache owner repo branch filePath 404 reason body _
        hremote (raiseForStatus_404 reason (audioUrlOf owner repo branch filePath)))]
    exact congrArg (AudioResponse.errorJson 500) (audio_err_msg _)

/-- A remote whose every fetch raises a `RequestException("boom")`
(used for C5). -/
def envBoom : Env :=
  ⟨fun _ => .exn "boom", fun _ => .exn "unused", none⟩

theorem audio_route_errors_500_witness :
    (get_audio_file envBoom Cache.empty "o" "r" "b" "f.mp3").response
        = .errorJson 500 ("404: Audio file not found: " ++ "boom")
    ∧ ("404: Audio file not found: " ++ "boom") ≠ "" :=
  (audio_route_errors_500 envBoom Cache.empty "o" "r" "b" "f.mp3").1 "boom" rfl

/-- A remote answering status 300 (a non-2xx status outside 400-599)
with bytes `[5, 6]` (used for C5). -/
def envRedirect : Env :=
  ⟨fun _ => .resp 300 "Multiple Choices" [5, 6], fun _ => .exn "unused", none⟩

/-- C5 as stated is false on the code for non-2xx statuses outside
400-599: a remote answer with status 300 — not a 2xx success — is not
turned into a 500 JSON error; the route serves the body as a success
file response, because `raise_for_status` only raises for 400-599. -/
theorem audio_route_non2xx_cex :
    is2xx 300 = false
    ∧ (get_audio_file envRedirect Cache.empty "o" "r" "b" "f.mp3").response
        = .fileResp (some [5, 6])
    ∧ ((get_audio_file envRedirect Cache.empty "o" "r" "b" "f.mp3").response).is500Error
        = false := by
  refine ⟨by decide, by decide, by decide⟩

/-! ## Behaviour of the `/list-audio/...` route -/

lemma list_route_exn (env : Env) (owner repo branch path : String) (m : String)
    (hremote : env.listApi (apiUrlOf owner repo branch path) = .exn m) :
    list_audio_files env owner repo branch path = .errorJson 404 m := by
  simp [list_audio_files, hremote]

lemma list_route_httpError (env : Env) (owner repo branch path : String)
    (status : Nat) (reason : String) (body : ListBody) (m : String)
    (hremote : env.listApi (apiUrlOf owner repo branch path) = .resp status reason body)
    (herr : raiseForStatus status reason (apiUrlOf owner repo branch path) = some m) :
    list_audio_files env owner repo branch path = .errorJson 404 m := by
  simp [list_audio_files, hremote, herr]

lemma list_route_nonArr (env : Env) (owner repo branch path : String)
    (status : Nat) (reason : String)
    (hremote : env.listApi (apiUrlOf owner repo branch path) = .resp status reason .nonArr)
    (hok : raiseForStatus status reason (apiUrlOf owner repo branch path) = none) :
    list_audio_files env owner repo branch path
      = .errorJson 400 "Path is not a directory" := by
  simp [list_audio_files, hremote, hok]

lemma list_route_arr (env : Env) (owner repo branch path : String)
    (status : Nat) (reason : String) (items : List Entry)
    (hremote : env.listApi (apiUrlOf owner repo branch path) = .resp status reason (.arr items))
    (hok : raiseForStatus status reason (apiUrlOf owner repo branch path) = none) :
    list_audio_files env owner repo branch path = .okFiles (audioFilesOf items) := by
  simp [list_audio_files, hremote, hok]

/-- C4 (amended): for `GET /list-audio/...` — if the remote listing call
succeeds (no exception, status outside 400-599) but the body is not an
array, the route responds 400 with `{error: ...}`; if the remote call
fails (a transport exception, or a 4xx/5xx status — the statuses for
which `raise_for_status` raises), it responds 404 with `{error: ...}`;
otherwise it responds 200 with `{audio_files: [...]}`.  The route never
attempts a file fetch: its response is independent of the raw-content
endpoint and of the filesystem.  (A non-2xx status outside 400-599,
e.g. 3xx, counts as success, not failure.) -/
theorem list_route_status_handling (env : Env) (owner repo branch path : String) :
    (∀ status reason,
      env.listApi (apiUrlOf owner repo branch path) = .resp status reason .nonArr →
      raiseForStatus status reason (apiUrlOf owner repo branch path) = none →
      list_audio_files env owner repo branch path
        = .errorJson 400 "Path is not a directory")
    ∧ (∀ m, env.listApi (apiUrlOf owner repo branch path) = .exn m →
        list_audio_files env owner repo branch path = .errorJson 404 m)
    ∧ (∀ status reason body m,
        env.listApi (apiUrlOf owner repo branch path) = .resp status reason body →
        raiseForStatus status reason (apiUrlOf owner repo branch path) = some m →
        list_audio_files env owner repo branch path = .errorJson 404 m)
    ∧ (∀ status reason items,
        env.listApi (apiUrlOf owner repo branch path) = .resp status reason (.arr items) →
        raiseForStatus status reason (apiUrlOf owner repo branch path) = none →
        list_audio_files env owner repo branch path = .okFiles (audioFilesOf items))
    ∧ (∀ (raw : String → FetchOutcome) (fs : Option String),
        list_audio_files ⟨raw, env.listApi, fs⟩ owner repo branch path
          = list_audio_files env owner repo branch path) := by
  refine ⟨?_, ?_, ?_, ?_, ?_⟩
  · intro status reason hremote hok
    exact list_route_nonArr env owner repo branch path status reason hremote hok
  · intro m hremote
    exact list_route_exn env owner repo branch path m hremote
  · intro status reason body m hremote herr
    exact list_route_httpError env owner repo branch path status reason body m hremote herr
  · intro status reason items hremote hok
    exact list_route_arr env owner repo branch path status reason items hremote hok
  · intro raw fs
    rfl

/-- A listing endpoint answering 200 with a non-array JSON body
(used for C4). -/
def envNonArr : Env :=
  ⟨fun _ => .exn "unused", fun _ => .resp 200 "OK" .nonArr, none⟩

theorem list_route_status_handling_witness :
    list_audio_files envNonArr "o" "r" "b" "p"
      = .errorJson 400 "Path is not a directory" :=
  (list_route_status_handling envNonArr "o" "r" "b" "p").1 200 "OK" rfl rfl

/-- A listing endpoint answering status 304 (non-2xx, outside 400-599)
with a valid JSON array body (used for C4). -/
def env304 : Env :=
  ⟨fun _ => .exn "unused", fun _ => .resp 304 "Not Modified" (.arr []), none⟩

/-- C4 as stated is false on the code for non-2xx statuses outside
400-599: a listing response with status 304 — not a 2xx success — and an
array body is not answered with a 404 error; the route answers 200
`{audio_files: []}`, because `raise_for_status` only raises for
400-599. -/
theorem list_route_non2xx_cex :
    is2xx 304 = false
    ∧ list_audio_files env304 "o" "r" "b" "p" = .okFiles []
    ∧ (list_audio_files env304 "o" "r" "b" "p").is404Error = false := by
  refine ⟨by decide, by decide, by decide⟩

/-! ## Behaviour of `find_available_port` and the server manager -/

lemma findPortLoop_some_iff (bound : Nat → Bool) :
    ∀ (fuel start p : Nat),
      findPortLoop bound start fuel = some p ↔
        (bound p = false ∧ start ≤ p ∧ p < start + fuel
          ∧ ∀ q, start ≤ q → q < p → bound q = true) := by
  intro fuel
  induction fuel with
  | zero =>
    intro start p
    constructor
    · intro h
      simp [findPortLoop] at h
    · rintro ⟨_, h1, h2, _⟩
      omega
  | succ n ih =>
    intro start p
    by_cases hb : bound start = true
    · rw [findPortLoop, if_pos hb, ih (start + 1) p]
      constructor
      · rintro ⟨hbp, h1, h2, hall⟩
        refine ⟨hbp, by omega, by omega, ?_⟩
        intro q hq1 hq2
        rcases Nat.eq_or_lt_of_le hq1 with heq | hlt
        · rw [← heq]
          exact hb
        · exact hall q (by omega) hq2
      · rintro ⟨hbp, h1, h2, hall⟩
        have hne : start ≠ p := by
          intro heq
          rw [heq] at hb
          rw [hbp] at hb
          cases hb
        refine ⟨hbp, by omega, by omega, ?_⟩
        intro q hq1 hq2
        exact hall q (by omega) hq2
    · have hb' : bound start = false := by simpa using hb
      rw [findPortLoop, if_neg hb]
      constructor
      · intro h
        have hps : start = p := by injection h
        rw [← hps]
        exact ⟨hb', Nat.le_refl start, by omega, fun q hq1 hq2 => absurd hq2 (by omega)⟩
      · rintro ⟨hbp, h1, h2, hall⟩
        have hps : p = start := by
          by_contra hne
          have hlt : start < p := by omega
          have := hall start (Nat.le_refl start) hlt
          rw [this] at hb'
          cases hb'
        rw [hps]

lemma findPortLoop_none_iff (bound : Nat → Bool) :
    ∀ (fuel start : Nat),
      findPortLoop bound start fuel = none ↔ ∀ i, i < fuel → bound (start + i) = true := by
  intro fuel
  induction fuel with
  | zero =>
    intro start
    exact ⟨fun _ i hi => absurd hi (Nat.not_lt_zero i), fun _ => rfl⟩
  | succ n ih =>
    intro start
    by_cases hb : bound start = true
    · rw [findPortLoop, if_pos hb, ih (start + 1)]
      constructor
      · intro h i hi
        cases i with
        | zero => simpa using hb
        | succ j =>
          have := h j (by omega)
          have harith : start + 1 + j = start + (j + 1) := by omega
          rw [harith] at this
          exact this
      · intro h i hi
        have := h (i + 1) (by omega)
        have harith : start + (i + 1) = start + 1 + i := by omega
        rw [harith] at this
        exact this
    · have hb' : bound start = false := by simpa using hb
      rw [findPortLoop, if_neg hb]
      constructor
      · intro h
        cases h
      · intro h
        have := h 0 (by omega)
        simp [hb'] at this

/-- C6: `find_available_port` probes `start, start+1, …, start+49` in
order and returns the first bindable port: it never returns a bound
port, and whenever some port in the probed range is free it returns the
lowest free port ≥ `start`; if none of the 50 ports is bindable it
raises `OSError` (the model's error result). -/
theorem find_available_port_correct (bound : Nat → Bool) (startPort : Nat) :
    (∀ p, find_available_port bound startPort = .ok p ↔
        (bound p = false ∧ startPort ≤ p ∧ p < startPort + 50
          ∧ ∀ q, startPort ≤ q → q < p → bound q = true))
    ∧ (find_available_port bound startPort
          = .error ("No available port found in range " ++ toString startPort
              ++ "-" ++ toString (startPort + 49))
        ↔ ∀ i, i < 50 → bound (startPort + i) = true) := by
  constructor
  · intro p
    constructor
    · intro h
      unfold find_available_port at h
      cases hfl : findPortLoop bound startPort 50 with
      | none =>
        rw [hfl] at h
        exact absurd h (by simp)
      | some q =>
        rw [hfl] at h
        have hqp : q = p := by injection h
        rw [← hqp]
        exact (findPortLoop_some_iff bound 50 startPort q).mp hfl
    · intro hr
      unfold find_available_port
      rw [(findPortLoop_some_iff bound 50 startPort p).mpr hr]
  · constructor
    · intro h
      unfold find_available_port at h
      cases hfl : findPortLoop bound startPort 50 with
      | some q =>
        rw [hfl] at h
        exact absurd h (by simp)
      | none =>
        exact (findPortLoop_none_iff bound 50 startPort).mp hfl
    · intro hall
      unfold find_available_port
      rw [(findPortLoop_none_iff bound 50 startPort).mpr hall]

/-- Only port 8000 is already bound (used for C6). -/
def boundOnly8000 : Nat → Bool := fun p => decide (p = 8000)

theorem find_available_port_correct_witness :
    find_available_port boundOnly8000 8000 = .ok 8001 := by
  apply ((find_available_port_correct boundOnly8000 8000).1 8001).mpr
  refine ⟨by decide, by omega, by omega, ?_⟩
  intro q hq1 hq2
  have hq : q = 8000 := by omega
  rw [hq]
  decide

/-- C7: `is_server_running` returns false immediately — making no
health request — when no port has ever been assigned; otherwise (for
the assigned, necessarily non-zero port) it issues exactly one health
GET and returns true iff that probe answers status 200; its result does
not depend on the stored `server_started` flag. -/
theorem is_server_running_live_probe (healthNow : Nat → Option Nat)
    (st : ServerManagerState) :
    (st.port = none → is_server_running healthNow st = ⟨false, 0⟩)
    ∧ (∀ p, st.port = some p → p ≠ 0 →
        (is_server_running healthNow st).requestsMade = 1
        ∧ ((is_server_running healthNow st).result = true ↔ healthNow p = some 200))
    ∧ (∀ b, is_server_running healthNow ⟨st.port, st.serverThreadExists, b⟩
        = is_server_running healthNow st) := by
  refine ⟨?_, ?_, ?_⟩
  · intro h
    simp [is_server_running, h]
  · intro p hp hpz
    simp [is_server_running, hp, hpz]
  · intro b
    rfl

/-- Every port answers the health probe with 200 (used for C7). -/
def healthAll200 : Nat → Option Nat := fun _ => some 200

/-- A manager state with port 8000 assigned (used for C7). -/
def stPort8000 : ServerManagerState := ⟨some 8000, true, false⟩

theorem is_server_running_live_probe_witness :
    (is_server_running healthAll200 stPort8000).requestsMade = 1
    ∧ ((is_server_running healthAll200 stPort8000).result = true
        ↔ healthAll200 8000 = some 200) :=
  (is_server_running_live_probe healthAll200 stPort8000).2.1 8000 rfl (by decide)

/-- C8: when `find_available_port` finds no free port, the raised
`OSError` propagates out of `start_server` to its caller, and the
manager's fields (`port`, `server_thread`, `server_started`) are left
unchanged by the failed launch attempt; no server is launched. -/
theorem start_server_port_exhaustion (bound : Nat → Bool) (prevThreadAlive : Bool)
    (probes : List (Option Nat)) (st : ServerManagerState)
    (hguard : st.serverThreadExists = false ∨ prevThreadAlive = false)
    (hall : ∀ i, i < 50 → bound (8000 + i) = true) :
    start_server bound prevThreadAlive probes st
      = ⟨.error ("No available port found in range " ++ toString 8000
          ++ "-" ++ toString (8000 + 49)), st, false⟩ := by
  have herr : find_available_port bound 8000
      = .error ("No available port found in range " ++ toString 8000
          ++ "-" ++ toString (8000 + 49)) := by
    unfold find_available_port
    rw [(findPortLoop_none_iff bound 50 8000).mpr hall]
  have hg : (st.serverThreadExists && prevThreadAlive) = false := by
    rcases hguard with h | h <;> simp [h]
  unfold start_server
  rw [hg]
  simp [herr]

theorem start_server_port_exhaustion_witness :
    start_server (fun _ => true) false [] initServerManager
      = ⟨.error ("No available port found in range " ++ toString 8000
          ++ "-" ++ toString (8000 + 49)), initServerManager, false⟩ :=
  start_server_port_exhaustion (fun _ => true) false [] initServerManager
    (Or.inr rfl) (fun _ _ => rfl)

/-- C9: calling `start_server` while a previous launch's thread object
exists and is still alive is a no-op: it returns normally without
probing ports, launching a server, or modifying any of the manager's
fields — and this holds for every port-bindability configuration. -/
theorem start_server_noop_when_thread_alive (bound : Nat → Bool) (prevThreadAlive : Bool)
    (probes : List (Option Nat)) (st : ServerManagerState)
    (hthread : st.serverThreadExists = true) (halive : prevThreadAlive = true) :
    start_server bound prevThreadAlive probes st = ⟨.ok (), st, false⟩ := by
  unfold start_server
  simp [hthread, halive]

/-- A manager state whose previous launch's thread still exists
(used for C9). -/
def stAlive : ServerManagerState := ⟨some 8005, true, true⟩

theorem start_server_noop_when_thread_alive_witness :
    start_server (fun _ => false) true [] stAlive = ⟨.ok (), stAlive, false⟩ :=
  start_server_noop_when_thread_alive (fun _ => false) true [] stAlive rfl rfl
